import Mathlib

/-!
Shallow embedding of the econagents event-driven state core, checked against
the repository sources:

* `econagents/core/state/game.py` — `PropertyMapping`, `GameState.update`,
  automatic mapping generation, custom handlers;
* `econagents/config_parser/base.py` — `StateFieldConfig`, `StateConfig`,
  `create_state_class`;
* `econagents/config_parser/ibex_tudelft.py` — market-event handler wrapper,
  name/role-assignment handlers, `_detect_market_state_in_config`,
  `run_experiment`, `_initialize_agent`.

Components whose Python sources are not present (the `Message` envelope from
`econagents/core/events.py`, `EventField` from `econagents/core/state/fields.py`,
the game runner from `econagents/core/game_runner.py`) are modelled from the
specification and the repository's own tests; their doc comments say so.
-/

/-- Python-style JSON-like values used in event data, auth kwargs and
configuration dictionaries. `pobj` stands for an opaque Python object of a
named class (used only as an inert factory product). -/
inductive PyValue where
  | pnone : PyValue
  | pbool (b : Bool) : PyValue
  | pint (n : Int) : PyValue
  | pstr (s : String) : PyValue
  | plist (xs : List PyValue) : PyValue
  | pdict (entries : List (String × PyValue)) : PyValue
  | pobj (cls : String) : PyValue

/-- A Python dict with string keys, modelled as an association list in
insertion order (Python dicts preserve insertion order). -/
abbrev PyDict := List (String × PyValue)

/-- Dictionary lookup: `d[k]` / `d.get(k)` returning the first binding. -/
def lookupVal : PyDict → String → Option PyValue
  | [], _ => none
  | (k', v') :: rest, k => if k' = k then some v' else lookupVal rest k

/-- `setattr`-style update on an attribute map: replaces the first binding of
the key in place, or appends a new binding if the key is absent. -/
def setField : List (String × PyValue) → String → PyValue → List (String × PyValue)
  | [], k, v => [(k, v)]
  | (k', v') :: rest, k, v =>
      if k' = k then (k, v) :: rest else (k', v') :: setField rest k v

/-- Modelled from the spec: the `Message` envelope of
`econagents/core/events.py` (absent from the sources) — message kind, event
type tag and a string-keyed data mapping; immutable. -/
structure Message where
  message_type : String
  event_type : String
  data : PyDict

/-- Python exception values, as far as the claims need them. `valueError`
carries the message and the `__cause__` chain set by `raise ... from e`. -/
inductive PyError where
  | valueError (msg : String) (cause : Option PyError) : PyError
  | attributeError (attr : String) : PyError
  | nameError (name : String) : PyError

/-- `str(e)` for the exceptions above (the part interpolated into messages). -/
def PyError.pyStr : PyError → String
  | .valueError m _ => m
  | .attributeError a => "object has no attribute " ++ a
  | .nameError n => "name " ++ n ++ " is not defined"

/-- Whether an exception is an `AttributeError`. -/
def PyError.isAttributeError : PyError → Bool
  | .attributeError _ => true
  | _ => false

/-- `PropertyMapping` from `econagents/core/state/game.py`: a declarative rule
binding an event-data key to a state-section field, with optional
allow/deny event filters. -/
structure PropertyMapping where
  event_key : String
  state_key : String
  state_type : String := "private"
  events : Option (List String) := none
  exclude_events : Option (List String) := none
deriving DecidableEq

/-- `PropertyMapping.model_post_init` (game.py:31-34): constructing a mapping
with both `events` and `exclude_events` raises `ValueError` at construction
time; otherwise construction succeeds. -/
def mkPropertyMapping (event_key state_key state_type : String)
    (events exclude_events : Option (List String)) : Except PyError PropertyMapping :=
  if events.isSome && exclude_events.isSome then
    .error (.valueError "Cannot specify both events and exclude_events" none)
  else
    .ok { event_key := event_key, state_key := state_key, state_type := state_type,
          events := events, exclude_events := exclude_events }

/-- `PropertyMapping.should_apply_in_event` (game.py:36-42). -/
def PropertyMapping.should_apply_in_event (m : PropertyMapping) (current_event : String) : Bool :=
  match m.events with
  | some evs => evs.contains current_event
  | none =>
    match m.exclude_events with
    | some ex => !(ex.contains current_event)
    | none => true

/-- The three mutable sections of a `GameState` (game.py:45-75): each is an
attribute map, since the pydantic section models allow extra attributes and
the update path writes by `setattr`. -/
structure StateSections where
  meta : List (String × PyValue)
  private_information : List (String × PyValue)
  public_information : List (String × PyValue)

/-- Writing `value` into section `state_type` at `state_key`
(the `setattr` dispatch of game.py:114-119); an unknown `state_type`
writes nothing, matching the if/elif chain with no else branch. -/
def writeSection (s : StateSections) (state_type state_key : String) (v : PyValue) : StateSections :=
  if state_type = "meta" then
    { s with meta := setField s.meta state_key v }
  else if state_type = "private" then
    { s with private_information := setField s.private_information state_key v }
  else if state_type = "public" then
    { s with public_information := setField s.public_information state_key v }
  else s

/-- One iteration of the mapping loop in `GameState.update` (game.py:102-119):
skip if the event filter excludes the current event type, skip if the
`event_key` is absent from the event data, otherwise write the value. -/
def applyMapping (event : Message) (s : StateSections) (m : PropertyMapping) : StateSections :=
  if m.should_apply_in_event event.event_type then
    match lookupVal event.data m.event_key with
    | none => s
    | some v => writeSection s m.state_type m.state_key v
  else s

/-- A custom event handler: receives the event type and data and rewrites the
state sections (the Python handler mutates `self`). -/
abbrev EventHandlerFn := String → PyDict → StateSections → StateSections

/-- A `GameState`: its three sections, the property mappings generated at
construction time, and the custom-handler table returned by
`get_custom_handlers` (a dict from event type to handler; game.py:201-206 —
the base class returns the empty table). -/
structure GameState where
  sections : StateSections
  property_mappings : List PropertyMapping
  custom_handlers : String → Option EventHandlerFn

/-- The property-mapping fallback path of `GameState.update`: the loop over
`self._property_mappings`. -/
def GameState.applyPropertyMappings (g : GameState) (event : Message) : StateSections :=
  g.property_mappings.foldl (applyMapping event) g.sections

/-- `GameState.update` (game.py:81-119): if the event type is a key of the
custom-handler table, invoke exactly that handler and return; otherwise run
the property-mapping loop. -/
def GameState.update (g : GameState) (event : Message) : StateSections :=
  match g.custom_handlers event.event_type with
  | some handler => handler event.event_type event.data g.sections
  | none => g.applyPropertyMappings event

/-- `StateFieldConfig` from `econagents/config_parser/base.py:96-104`: the
per-field state-configuration schema. These six attributes are the whole
schema; pydantic's default config silently ignores unknown keys on input. -/
structure StateFieldConfig where
  name : String
  type : String
  default : PyValue := .pnone
  default_factory : Option String := none
  event_key : Option String := none
  exclude_from_mapping : Bool := false

/-- `StateConfig` from `base.py:107-112`: exactly three defined attributes,
`meta_fields`, `private_fields` and `public_fields`. -/
structure StateConfig where
  meta_fields : List StateFieldConfig := []
  private_fields : List StateFieldConfig := []
  public_fields : List StateFieldConfig := []

/-- Python `getattr` on a `StateConfig` instance: the three defined
attributes resolve; any other name raises `AttributeError` (pydantic models
ignore unknown input keys and define no other attributes). -/
def StateConfig.getattrFields (s : StateConfig) (attr : String) :
    Except PyError (List StateFieldConfig) :=
  if attr = "meta_fields" then .ok s.meta_fields
  else if attr = "private_fields" then .ok s.private_fields
  else if attr = "public_fields" then .ok s.public_fields
  else .error (.attributeError attr)

/-- Parse one field dictionary into a `StateFieldConfig`, as pydantic
validation does: `name` and `type` are required strings, the rest default;
unknown keys (for example `events`, `exclude_events` or `optional`) are
ignored because the model declares no such attributes. -/
def parseStateFieldConfig (raw : PyDict) : Option StateFieldConfig :=
  match lookupVal raw "name", lookupVal raw "type" with
  | some (.pstr n), some (.pstr t) =>
      some { name := n, type := t,
             default := (lookupVal raw "default").getD .pnone,
             default_factory :=
               match lookupVal raw "default_factory" with
               | some (.pstr f) => some f
               | _ => none,
             event_key :=
               match lookupVal raw "event_key" with
               | some (.pstr k) => some k
               | _ => none,
             exclude_from_mapping :=
               match lookupVal raw "exclude_from_mapping" with
               | some (.pbool b) => b
               | _ => false }
  | _, _ => none

/-- Parse the value stored under one of the three field-list keys. A missing
key yields the declared `default_factory=list`, i.e. the empty list. -/
def parseFieldList (v : Option PyValue) : Option (List StateFieldConfig) :=
  match v with
  | none => some []
  | some (.plist xs) =>
      xs.mapM (fun x =>
        match x with
        | .pdict d => parseStateFieldConfig d
        | _ => none)
  | some _ => none

/-- Pydantic validation of the `state:` section of a configuration file into
a `StateConfig`: only the keys `meta_fields`, `private_fields` and
`public_fields` are read; every other key of the input dictionary (such as
`meta_information`/`private_information`/`public_information`, used by the
repository's own test configurations) is silently dropped. -/
def parseStateConfig (raw : PyDict) : Option StateConfig := do
  let m ← parseFieldList (lookupVal raw "meta_fields")
  let p ← parseFieldList (lookupVal raw "private_fields")
  let q ← parseFieldList (lookupVal raw "public_fields")
  pure { meta_fields := m, private_fields := p, public_fields := q }

/-- A default factory resolved by `create_state_class`. -/
inductive PyFactory where
  | flist : PyFactory
  | fdict : PyFactory
  | fnamed (name : String) : PyFactory

/-- The names bound in the module namespace of `base.py` at call time: its
imports (base.py:1-18) and its top-level definitions. `MarketState` is not
among them — base.py imports no market classes. -/
def basePyGlobals : List String :=
  ["asyncio", "importlib", "json", "logging", "Path",
   "Any", "Dict", "List", "Literal", "Optional", "Type", "Union",
   "datetime", "date", "time", "yaml",
   "BaseModel", "Field", "create_model", "validator", "PydanticUndefined",
   "AgentRole", "GameRunner", "GameRunnerConfig", "HybridGameRunnerConfig",
   "TurnBasedGameRunnerConfig", "PhaseManager", "TurnBasedPhaseManager",
   "EventField", "GameState", "MetaInformation", "PrivateInformation",
   "PublicInformation", "BaseLLM", "ChatOpenAI",
   "TYPE_MAPPING", "EventHandler", "AgentRoleConfig", "AgentMappingConfig",
   "AgentConfig", "StateFieldConfig", "StateConfig", "ManagerConfig",
   "RunnerConfig", "ExperimentConfig", "BaseConfigParser",
   "run_experiment_from_yaml",
   "__name__", "__doc__", "__package__", "__loader__", "__spec__",
   "__file__", "__builtins__"]

/-- The names of the CPython builtins namespace, all of which `eval`
resolves in any module. -/
def pythonBuiltinNames : List String :=
  ["abs", "aiter", "anext", "all", "any", "ascii", "bin", "bool",
   "breakpoint", "bytearray", "bytes", "callable", "chr", "classmethod",
   "compile", "complex", "copyright", "credits", "delattr", "dict", "dir",
   "divmod", "enumerate", "eval", "exec", "exit", "filter", "float",
   "format", "frozenset", "getattr", "globals", "hasattr", "hash", "help",
   "hex", "id", "input", "int", "isinstance", "issubclass", "iter", "len",
   "license", "list", "locals", "map", "max", "memoryview", "min", "next",
   "object", "oct", "open", "ord", "pow", "print", "property", "quit",
   "range", "repr", "reversed", "round", "set", "setattr", "slice",
   "sorted", "staticmethod", "str", "sum", "super", "tuple", "type",
   "vars", "zip",
   "True", "False", "None", "NotImplemented", "Ellipsis", "__debug__",
   "__build_class__", "__import__",
   "ArithmeticError", "AssertionError", "AttributeError", "BaseException",
   "BaseExceptionGroup", "BlockingIOError", "BrokenPipeError",
   "BufferError", "BytesWarning", "ChildProcessError",
   "ConnectionAbortedError", "ConnectionError", "ConnectionRefusedError",
   "ConnectionResetError", "DeprecationWarning", "EOFError",
   "EncodingWarning", "EnvironmentError", "Exception", "ExceptionGroup",
   "FileExistsError", "FileNotFoundError", "FloatingPointError",
   "FutureWarning", "GeneratorExit", "IOError", "ImportError",
   "ImportWarning", "IndentationError", "IndexError", "InterruptedError",
   "IsADirectoryError", "KeyError", "KeyboardInterrupt", "LookupError",
   "MemoryError", "ModuleNotFoundError", "NameError",
   "NotADirectoryError", "NotImplementedError", "OSError",
   "OverflowError", "PendingDeprecationWarning", "PermissionError",
   "ProcessLookupError", "RecursionError", "ReferenceError",
   "ResourceWarning", "RuntimeError", "RuntimeWarning",
   "StopAsyncIteration", "StopIteration", "SyntaxError", "SyntaxWarning",
   "SystemError", "SystemExit", "TabError", "TimeoutError", "TypeError",
   "UnboundLocalError", "UnicodeDecodeError", "UnicodeEncodeError",
   "UnicodeError", "UnicodeTranslateError", "UnicodeWarning",
   "UserWarning", "ValueError", "Warning", "ZeroDivisionError"]

/-- Modelled from Python semantics: `eval(factory_name)` inside
`get_default_factory` resolves names against base.py's module globals plus
the builtins namespace; any name in neither — such as `MarketState`, which
base.py never imports — raises `NameError`. -/
def evalFactoryName (n : String) : Except PyError PyFactory :=
  if basePyGlobals.contains n || pythonBuiltinNames.contains n then
    .ok (.fnamed n)
  else
    .error (.nameError n)

/-- `get_default_factory` inside `create_state_class` (base.py:135-141). -/
def get_default_factory (factory_name : String) : Except PyError PyFactory :=
  if factory_name = "list" then .ok .flist
  else if factory_name = "dict" then .ok .fdict
  else evalFactoryName factory_name

/-- Calling a resolved factory: `list()` is `[]`, `dict()` is `{}`; other
builtin factories produce an opaque fresh object of that class. -/
def PyFactory.call : PyFactory → PyValue
  | .flist => .plist []
  | .fdict => .pdict []
  | .fnamed n => .pobj n

/-- Modelled from the spec: the metadata carried by an `EventField`
declaration (`econagents/core/state/fields.py` is absent from the sources) —
default, default factory, optional event-key override, exclusion flag and
optional event allow/deny filters. -/
structure EventFieldMeta where
  default : PyValue := .pnone
  default_factory : Option PyFactory := none
  event_key : Option String := none
  exclude_from_mapping : Bool := false
  events : Option (List String) := none
  exclude_events : Option (List String) := none

/-- The `EventField(...)` call made for each configured field inside
`create_state_class` (base.py:160-165 and the two identical loops that
follow): `default` is suppressed when a factory is given, the factory is
resolved by `get_default_factory`, and no `events`/`exclude_events`
arguments are passed — both filters are always absent. -/
def fieldToEventField (f : StateFieldConfig) : Except PyError EventFieldMeta :=
  match f.default_factory with
  | none =>
      .ok { default := f.default, default_factory := none,
            event_key := f.event_key, exclude_from_mapping := f.exclude_from_mapping }
  | some fn =>
    match get_default_factory fn with
    | .error e => .error e
    | .ok fac =>
        .ok { default := .pnone, default_factory := some fac,
              event_key := f.event_key, exclude_from_mapping := f.exclude_from_mapping }

/-- The product of `create_state_class`: one list of named `EventField`
declarations per section. -/
structure StateClassModel where
  metaFields : List (String × EventFieldMeta)
  privateFields : List (String × EventFieldMeta)
  publicFields : List (String × EventFieldMeta)

/-- One section's loop of `StateConfig.create_state_class`. -/
def buildSectionFields (fields : List StateFieldConfig) :
    Except PyError (List (String × EventFieldMeta)) :=
  fields.mapM (fun f => (fieldToEventField f).map (fun m => (f.name, m)))

/-- `StateConfig.create_state_class` (base.py:114-202): attach one
`EventField` per configured field to the dynamic section classes. The only
failure path is default-factory resolution (`resolve_field_type` is defined
in the source but never called). -/
def createStateClass (cfg : StateConfig) : Except PyError StateClassModel := do
  let m ← buildSectionFields cfg.meta_fields
  let p ← buildSectionFields cfg.private_fields
  let q ← buildSectionFields cfg.public_fields
  pure { metaFields := m, privateFields := p, publicFields := q }

/-- Modelled from the spec: pydantic default resolution for a registered
field on instantiation with no arguments — the default-factory result when a
factory is declared, the plain default otherwise. -/
def fieldDefaultValue (m : EventFieldMeta) : PyValue :=
  match m.default_factory with
  | some f => f.call
  | none => m.default

/-- Instantiating a section of the built state class with no arguments:
every registered field reads as its resolved default. -/
def freshSection (fields : List (String × EventFieldMeta)) : List (String × PyValue) :=
  fields.map (fun nm => (nm.1, fieldDefaultValue nm.2))

/-- Instantiating the built state class with no arguments. -/
def freshInstance (sc : StateClassModel) : StateSections :=
  { meta := freshSection sc.metaFields,
    private_information := freshSection sc.privateFields,
    public_information := freshSection sc.publicFields }

/-- Python `str.split("_")` at the character level. -/
def splitUnderscore : List Char → List Char → List (List Char)
  | [], acc => [acc.reverse]
  | c :: cs, acc =>
      if c = '_' then acc.reverse :: splitUnderscore cs []
      else splitUnderscore cs (c :: acc)

/-- Python `str.title()` on one identifier part: first letter upper, rest
lower. -/
def titlePart : List Char → List Char
  | [] => []
  | c :: cs => c.toUpper :: cs.map Char.toLower

/-- snake_case to camelCase conversion of `_generate_mappings_from_model`
(game.py:172-175): split the field name on underscores, keep the first part
and title-case the rest. -/
def camelCaseOf (name : String) : String :=
  match splitUnderscore name.toList [] with
  | [] => ""
  | p :: ps => String.mk (p ++ (ps.map titlePart).flatten)

/-- The mapping generated for one field by `_generate_mappings_from_model`
(game.py:141-199): excluded fields yield no mapping; otherwise the event key
is the declared override or the camel-cased field name, and the event
filters are taken verbatim from the field's metadata. -/
def mappingFromEventField (state_type fieldName : String) (meta : EventFieldMeta) :
    Option PropertyMapping :=
  if meta.exclude_from_mapping then none
  else
    some { event_key := meta.event_key.getD (camelCaseOf fieldName),
           state_key := fieldName,
           state_type := state_type,
           events := meta.events,
           exclude_events := meta.exclude_events }

/-- End-to-end pipeline for one raw field dictionary of a configuration
file: pydantic validation, the `EventField` construction of
`create_state_class`, then automatic mapping generation. -/
def mappingOfRawField (state_type : String) (raw : PyDict) : Option PropertyMapping :=
  match parseStateFieldConfig raw with
  | none => none
  | some f =>
    match fieldToEventField f with
    | .error _ => none
    | .ok meta => mappingFromEventField state_type f.name meta

/-- `AgentRoleConfig` from `base.py:45-51`, trimmed to the fields the role
machinery reads (LLM parameters are opaque to the claims). -/
structure AgentRoleConfig where
  role_id : Int
  name : String
  llm_type : String := "ChatOpenAI"

/-- The `AgentRole` instance produced by
`AgentRoleConfig.create_agent_role` (base.py:53-64): a dynamic role subclass
carrying the configured role id and name. -/
structure AgentRole where
  role : Int
  name : String

/-- `AgentRoleConfig.create_agent_role`. -/
def AgentRoleConfig.create_agent_role (c : AgentRoleConfig) : AgentRole :=
  { role := c.role_id, name := c.name }

/-- The slice of a `PhaseManager` the claims observe: the optional bound
agent role, the game id, and the messages sent over the transport, in send
order (`econagents/core/manager/phase.py` is absent from the sources; this
shell is modelled from the spec's manager interface). -/
structure Manager where
  agent_role : Option AgentRole := none
  game_id : Int := 0
  sent : List PyDict := []

/-- `manager.send_message` as the claims observe it: appends one outbound
payload. -/
def Manager.send_message (m : Manager) (payload : PyDict) : Manager :=
  { m with sent := m.sent ++ [payload] }

/-- `IbexTudelftConfigParser._initialize_agent`
(`ibex_tudelft.py:218-237`): find the first configured role with the
assigned role id and bind its freshly created `AgentRole` to the manager;
an id matching no configured role raises
`ValueError("Invalid role for agent initialization.")`. -/
def initializeAgent (agent_roles : List AgentRoleConfig) (manager : Manager)
    (role_id : Int) : Except PyError Manager :=
  match agent_roles.find? (fun r => r.role_id == role_id) with
  | some agent_role =>
      .ok { manager with agent_role := some agent_role.create_agent_role }
  | none => .error (.valueError "Invalid role for agent initialization." none)

/-- `handle_name_assignment` registered by
`IbexTudelftConfigParser.create_manager` (`ibex_tudelft.py:99-104`): on an
assign-name event, send one readiness message
`{"gameId": game_id, "type": "player-is-ready", "agentId": auth_kwargs.get("agent_id")}`. -/
def handleNameAssignment (game_id : Int) (auth_kwargs : PyDict) (manager : Manager)
    (_message : Message) : Manager :=
  let agent_id := (lookupVal auth_kwargs "agent_id").getD .pnone
  let ready_msg : PyDict :=
    [("gameId", .pint game_id), ("type", .pstr "player-is-ready"), ("agentId", agent_id)]
  manager.send_message ready_msg

/-- `handle_market_event_impl` (`ibex_tudelft.py:15-22`): run the market
sub-state's `process_event` (its Python source lives outside these sources,
so it is passed in abstractly); any exception `e` it raises is re-raised as
`ValueError("Error processing market event: " + str(e))` with `e` as the
cause. -/
def handleMarketEventImpl {α : Type}
    (process_event : String → PyDict → Except PyError α)
    (event_type : String) (data : PyDict) : Except PyError α :=
  match process_event event_type data with
  | .ok a => .ok a
  | .error e =>
      .error (.valueError ("Error processing market event: " ++ e.pyStr) (some e))

/-- `IbexTudelftConfigParser._detect_market_state_in_config`
(`ibex_tudelft.py:120-140`): iterate `state_conf.public_information`, then
`state_conf.private_information`, then `state_conf.meta_information`,
looking for a field of type `MarketState`. Each section is read by
attribute access on the `StateConfig` instance. -/
def detectMarketStateInConfig (state_conf : StateConfig) :
    Except PyError (Bool × Option (String × String)) := do
  let pub ← state_conf.getattrFields "public_information"
  match pub.find? (fun f => f.type == "MarketState") with
  | some f => pure (true, some (f.name, "public_information"))
  | none => do
    let priv ← state_conf.getattrFields "private_information"
    match priv.find? (fun f => f.type == "MarketState") with
    | some f => pure (true, some (f.name, "private_information"))
    | none => do
      let metaf ← state_conf.getattrFields "meta_information"
      match metaf.find? (fun f => f.type == "MarketState") with
      | some f => pure (true, some (f.name, "meta"))
      | none => pure (false, none)

/-- The slice of `ExperimentConfig` that `IbexTudelftConfigParser.run_experiment`
reads before reaching the runner. -/
structure ExperimentConfigModel where
  state : StateConfig
  agent_roles : List AgentRoleConfig

/-- The observable outcome of a successful `run_experiment` setup: whether
the state class was enhanced with market handlers, and the managers
constructed (one per login payload). -/
structure RunnerLaunch where
  enhanced : Bool
  managers : List Manager
  game_id : Int

/-- `IbexTudelftConfigParser.run_experiment` (`ibex_tudelft.py:166-211`) up
to the hand-off to the game runner: build the base state class, detect
market state in the configuration, check agent roles, then construct one
manager per login payload. -/
def runExperimentIbex (cfg : ExperimentConfigModel) (login_payloads : List PyDict)
    (game_id : Int) : Except PyError RunnerLaunch := do
  let _base ← createStateClass cfg.state
  let det ← detectMarketStateInConfig cfg.state
  if cfg.agent_roles.isEmpty then
    throw (.valueError "Configuration has no agent_roles." none)
  let managers := login_payloads.map (fun _ => { game_id := game_id : Manager })
  pure { enhanced := det.1, managers := managers, game_id := game_id }

/-- Whether `pat` starts the character list `l`. -/
def startsWithChars : List Char → List Char → Bool
  | [], _ => true
  | _ :: _, [] => false
  | p :: ps, c :: cs => p == c && startsWithChars ps cs

/-- Whether `pat` occurs contiguously anywhere in `l`. -/
def hasSubstringChars (pat : List Char) : List Char → Bool
  | [] => startsWithChars pat []
  | c :: cs => startsWithChars pat (c :: cs) || hasSubstringChars pat cs

/-- Whether the string `pat` occurs in `s`. -/
def strContains (s pat : String) : Bool :=
  hasSubstringChars pat.toList s.toList

/-- Modelled from the spec: the game runner's timeout supervision
(`econagents/core/game_runner.py` is absent from the sources; behavior per
spec section 4.5 and the runner tests). Time is discrete; each agent is its
start task's natural running time. -/
structure RunResult where
  forcedStops : List Nat
  timeoutLogged : Bool
deriving DecidableEq

/-- Indices of the agents whose start tasks are still running at time `t`
(their natural duration exceeds `t`). -/
def stillRunningAt (agentDurations : List Nat) (t : Nat) : List Nat :=
  (agentDurations.enum.filter (fun p => decide (t < p.2))).map (fun p => p.1)

/-- Modelled from the spec: `GameRunner.run_game` timeout supervision. With
a positive `max_game_duration`, a watchdog fires at the deadline if any
agent is still running: it calls `stop()` on every still-running manager
and logs the timeout. If all agents finish first the watchdog is cancelled;
with a zero or negative `max_game_duration` no watchdog exists at all. -/
def runGameSim (max_game_duration : Int) (agentDurations : List Nat) : RunResult :=
  if max_game_duration ≤ 0 then
    { forcedStops := [], timeoutLogged := false }
  else
    let deadline := max_game_duration.toNat
    let still := stillRunningAt agentDurations deadline
    if still.isEmpty then { forcedStops := [], timeoutLogged := false }
    else { forcedStops := still, timeoutLogged := true }

/-- A concrete custom handler used in examples: records that it handled the
event in the meta section. -/
def demoHandler : EventHandlerFn :=
  fun _ _ s => { s with meta := setField s.meta "handled" (.pbool true) }

/-- Concrete initial sections for the examples. -/
def demoSections : StateSections :=
  { meta := [("phase", .pint 0)],
    private_information := [("score", .pint 1)],
    public_information := [("round_limit", .pint 10)] }

/-- A concrete game state whose class registers a custom handler for
`add-order` (as the enhanced IBEX state class does) and one property
mapping. -/
def demoStateWithHandler : GameState :=
  { sections := demoSections,
    property_mappings := [{ event_key := "phase", state_key := "phase", state_type := "meta" }],
    custom_handlers := fun t => if t = "add-order" then some demoHandler else none }

/-- A concrete game state with no custom handlers, one mapping restricted to
`phase-transition` events and one mapping whose event key never occurs. -/
def demoStateNoHandler : GameState :=
  { sections := demoSections,
    property_mappings :=
      [{ event_key := "phase", state_key := "phase", state_type := "meta",
         events := some ["phase-transition"] },
       { event_key := "missingKey", state_key := "score", state_type := "private" }],
    custom_handlers := fun _ => none }

/-- A concrete `add-order` event. -/
def demoEventAdd : Message :=
  { message_type := "event", event_type := "add-order", data := [("phase", .pint 3)] }

/-- A concrete event of a type with no custom handler. -/
def demoEventOther : Message :=
  { message_type := "event", event_type := "phase-transition", data := [("phase", .pint 3)] }

/-- The `state:` dictionary of the repository's own sample configuration
(`tests/config_parser/test_base_parser.py`, `sample_config_dict`), trimmed
to one representative field per section: the field lists are given under the
keys `meta_information`/`private_information`/`public_information`. -/
def sampleStateRawTest : PyDict :=
  [("meta_information", .plist [.pdict [("name", .pstr "game_id"), ("type", .pstr "int"),
      ("default", .pint 0)]]),
   ("private_information", .plist [.pdict [("name", .pstr "score"), ("type", .pstr "int"),
      ("default", .pint 0)]]),
   ("public_information", .plist [.pdict [("name", .pstr "round_limit"), ("type", .pstr "int"),
      ("default", .pint 10)]])]

/-- A configuration accepted by the loader whose state declares a
`MarketState` field with `default_factory: MarketState` (the shape of the
repository's own market-state test configuration, under the field-list keys
the `StateConfig` schema actually defines). -/
def cfgMarketFactory : ExperimentConfigModel :=
  { state := { public_fields :=
      [{ name := "current_market", type := "MarketState",
         default_factory := some "MarketState" },
       { name := "winning_condition", type := "int", default := .pint 0 }] },
    agent_roles := [{ role_id := 1, name := "MarketAgent" }] }

/-- A configuration accepted by the loader whose state-class construction
succeeds (no default factory beyond `list`/`dict`). -/
def cfgPlain : ExperimentConfigModel :=
  { state := { public_fields :=
      [{ name := "round_limit", type := "int", default := .pint 10 },
       { name := "players", type := "list", default_factory := some "list" }] },
    agent_roles := [{ role_id := 1, name := "TestRole" }] }

/-- The agent-role table of the examples: roles 1, 2, 3. -/
def demoRoles : List AgentRoleConfig :=
  [{ role_id := 1, name := "Speculator" },
   { role_id := 2, name := "Developer" },
   { role_id := 3, name := "Owner" }]

/-- A freshly created manager with no role bound. -/
def demoManager : Manager := { game_id := 42 }

/-- Concrete auth kwargs of one login payload. -/
def demoAuthKwargs : PyDict :=
  [("agent_id", .pint 7), ("auth_token", .pstr "token")]

/-- A concrete assign-name event. -/
def demoAssignName : Message :=
  { message_type := "event", event_type := "assign-name", data := [("name", .pstr "Alice")] }

/-- A market `process_event` that raises a plain `ValueError("boom")` on any
event, standing for inner processing that fails. -/
def failingProcessEvent : String → PyDict → Except PyError Unit :=
  fun _ _ => .error (.valueError "boom" none)

/-- A raw per-field configuration dictionary that carries an event
allow-list under the key `events`, alongside the usual schema keys. -/
def c10RawField : PyDict :=
  [("name", .pstr "round_limit"), ("type", .pstr "int"), ("default", .pint 10),
   ("events", .plist [.pstr "round-started"])]

/-- The mapping actually generated for `c10RawField`: event key camel-cased,
both event filters absent. -/
def c10Mapping : PropertyMapping :=
  { event_key := "roundLimit", state_key := "round_limit", state_type := "public" }

/-- Helper for the frame property: a mapping loop in which every mapping is
either filtered out by its event filter or finds its event key absent
leaves the sections untouched. -/
lemma foldl_applyMapping_eq_self (e : Message) :
    ∀ (ms : List PropertyMapping) (s : StateSections),
      (∀ m ∈ ms, m.should_apply_in_event e.event_type = false ∨
        lookupVal e.data m.event_key = none) →
      ms.foldl (applyMapping e) s = s := by
  intro ms
  induction ms with
  | nil => intro s _; rfl
  | cons m rest ih =>
    intro s hall
    have hm := hall m (List.mem_cons_self m rest)
    have hstep : applyMapping e s m = s := by
      rcases hm with hfalse | hnone
      · simp [applyMapping, hfalse]
      · simp [applyMapping, hnone]
    rw [List.foldl_cons, hstep]
    exact ih s (fun m' hm' => hall m' (List.mem_cons_of_mem _ hm'))

/-- C1: for every `GameState` and every event whose type is a key of the
custom-handler table, `update` invokes exactly that handler, with the event
type and data, and the sections become exactly what the handler dictates —
no property mapping is applied; for every event whose type has no custom
handler, `update` runs exactly the property-mapping path. -/
theorem update_custom_handler_exclusive (g : GameState) (e : Message) :
    (∀ h : EventHandlerFn, g.custom_handlers e.event_type = some h →
      g.update e = h e.event_type e.data g.sections) ∧
    (g.custom_handlers e.event_type = none →
      g.update e = g.applyPropertyMappings e) := by
  constructor
  · intro h hh
    unfold GameState.update
    rw [hh]
  · intro hn
    unfold GameState.update
    rw [hn]

/-- Witness for C1: a state class with a handler for `add-order` routes an
`add-order` event to that handler exactly, and routes a
`phase-transition` event to the mapping path. -/
theorem update_custom_handler_exclusive_witness :
    demoStateWithHandler.update demoEventAdd =
      demoHandler "add-order" [("phase", .pint 3)] demoSections ∧
    demoStateWithHandler.update demoEventOther =
      demoStateWithHandler.applyPropertyMappings demoEventOther :=
  ⟨(update_custom_handler_exclusive demoStateWithHandler demoEventAdd).1 demoHandler rfl,
   (update_custom_handler_exclusive demoStateWithHandler demoEventOther).2 rfl⟩

/-- C2: with no custom handler for the event's type, if every registered
mapping is either excluded by its events filter or has an event key absent
from the event data, `update` leaves all three sections exactly unchanged
(and, being total, raises nothing): absent keys are skipped silently. -/
theorem update_frame_no_matching_mapping (g : GameState) (e : Message)
    (hhandler : g.custom_handlers e.event_type = none)
    (hskip : ∀ m ∈ g.property_mappings,
      m.should_apply_in_event e.event_type = false ∨
      lookupVal e.data m.event_key = none) :
    g.update e = g.sections := by
  have hpath : g.update e = g.applyPropertyMappings e := by
    unfold GameState.update
    rw [hhandler]
  rw [hpath]
  exact foldl_applyMapping_eq_self e g.property_mappings g.sections hskip

/-- Witness for C2: an `add-order` event against a state whose first mapping
only fires on `phase-transition` and whose second mapping's key is absent
leaves the sections unchanged. -/
theorem update_frame_no_matching_mapping_witness :
    demoStateNoHandler.update demoEventAdd = demoSections :=
  update_frame_no_matching_mapping demoStateNoHandler demoEventAdd rfl
    (by
      intro m hm
      fin_cases hm
      · exact Or.inl rfl
      · exact Or.inr rfl)

/-- C6: constructing a `PropertyMapping` with both `events` and
`exclude_events` raises `ValueError` at construction time; with at most one
filter construction succeeds and `should_apply_in_event e` is true exactly
when the allow-list is set and contains `e`, or the deny-list is set and
does not contain `e`, or neither filter is set. -/
theorem property_mapping_filter_validation (ek sk st : String)
    (es xs : Option (List String)) :
    (es.isSome = true → xs.isSome = true →
      mkPropertyMapping ek sk st es xs =
        .error (.valueError "Cannot specify both events and exclude_events" none)) ∧
    (es = none ∨ xs = none →
      ∃ m, mkPropertyMapping ek sk st es xs = .ok m ∧
        ∀ e, (m.should_apply_in_event e = true ↔
          ((∃ l, es = some l ∧ e ∈ l) ∨ (∃ l, xs = some l ∧ e ∉ l) ∨
           (es = none ∧ xs = none)))) := by
  constructor
  · intro h1 h2
    simp [mkPropertyMapping, h1, h2]
  · intro hor
    have hcond : (es.isSome && xs.isSome) = false := by
      rcases hor with h | h <;> simp [h]
    refine ⟨{ event_key := ek, state_key := sk, state_type := st,
              events := es, exclude_events := xs }, ?_, ?_⟩
    · simp [mkPropertyMapping, hcond]
    · intro e
      cases es with
      | some l =>
        have hxs : xs = none := by
          rcases hor with h | h
          · exact absurd h (by simp)
          · exact h
        subst hxs
        simp [PropertyMapping.should_apply_in_event]
      | none =>
        cases xs with
        | some l => simp [PropertyMapping.should_apply_in_event]
        | none => simp [PropertyMapping.should_apply_in_event]

/-- Witness for C6: both filters given is rejected; an allow-list-only
mapping is accepted and fires exactly on listed events. -/
theorem property_mapping_filter_validation_witness :
    mkPropertyMapping "balance" "balance" "private"
        (some ["asset-movement"]) (some ["add-order"]) =
      .error (.valueError "Cannot specify both events and exclude_events" none) ∧
    ∃ m, mkPropertyMapping "balance" "balance" "private"
        (some ["asset-movement"]) none = .ok m ∧
      ∀ e, (m.should_apply_in_event e = true ↔
        ((∃ l, (some ["asset-movement"] : Option (List String)) = some l ∧ e ∈ l) ∨
         (∃ l, (none : Option (List String)) = some l ∧ e ∉ l) ∨
         ((some ["asset-movement"] : Option (List String)) = none ∧
          (none : Option (List String)) = none))) :=
  ⟨(property_mapping_filter_validation "balance" "balance" "private"
      (some ["asset-movement"]) (some ["add-order"])).1 rfl rfl,
   (property_mapping_filter_validation "balance" "balance" "private"
      (some ["asset-movement"]) none).2 (Or.inr rfl)⟩

/-- C3, evaluated at the failing input: the repository's own sample
configuration supplies its field-schema lists under the keys
`meta_information`/`private_information`/`public_information`
(tests/config_parser/test_base_parser.py), but `StateConfig` validation
reads only `meta_fields`/`private_fields`/`public_fields` and silently
drops the rest — so the class built by `create_state_class` registers no
fields at all and a fresh instance has no `round_limit` reading as 10,
contrary to the claim and to the repository's own
`test_dynamic_state_instantiation_and_defaults`. -/
theorem state_defaults_dropped_at_test_input :
    parseStateConfig sampleStateRawTest =
      some { meta_fields := [], private_fields := [], public_fields := [] } ∧
    createStateClass { meta_fields := [], private_fields := [], public_fields := [] } =
      .ok { metaFields := [], privateFields := [], publicFields := [] } ∧
    lookupVal (freshInstance
        { metaFields := [], privateFields := [], publicFields := [] }).public_information
      "round_limit" = none :=
  ⟨rfl, rfl, rfl⟩

/-- Every section read by `_detect_market_state_in_config` is an attribute
`StateConfig` does not define, so detection always raises
`AttributeError` on its very first access. -/
lemma detectMarketStateInConfig_attribute_error (s : StateConfig) :
    detectMarketStateInConfig s = .error (.attributeError "public_information") := rfl

/-- C4 counterexample: a loader-accepted configuration whose state declares
`default_factory: MarketState` makes `run_experiment` raise `NameError`
(from `eval` inside `create_state_class`, where `MarketState` is not in
scope) rather than the claimed `AttributeError`. -/
theorem run_experiment_name_error_counterexample :
    runExperimentIbex cfgMarketFactory [] 7 = .error (.nameError "MarketState") ∧
    (PyError.nameError "MarketState").isAttributeError = false :=
  ⟨rfl, rfl⟩

/-- C4 (amended): for every configuration whose state-class construction
succeeds, `IbexTudelftConfigParser.run_experiment` raises
`AttributeError` at its market-state detection step — which reads the
undefined attributes `public_information`/`private_information`/
`meta_information` of `StateConfig` — and therefore errors before
constructing any manager or runner. -/
theorem run_experiment_always_attribute_error (cfg : ExperimentConfigModel)
    (payloads : List PyDict) (game_id : Int)
    (h : (createStateClass cfg.state).isOk = true) :
    runExperimentIbex cfg payloads game_id =
      .error (.attributeError "public_information") := by
  obtain ⟨sc, hc⟩ : ∃ sc, createStateClass cfg.state = .ok sc := by
    cases hcc : createStateClass cfg.state with
    | error e => rw [hcc] at h; simp [Except.isOk, Except.toBool] at h
    | ok sc => exact ⟨sc, rfl⟩
  unfold runExperimentIbex
  simp only [hc, detectMarketStateInConfig_attribute_error]
  rfl

/-- Witness for C4 (amended): a plain configuration builds its state class,
then fails with `AttributeError("public_information")`. -/
theorem run_experiment_always_attribute_error_witness :
    runExperimentIbex cfgPlain [[("agent_id", .pint 1)]] 5 =
      .error (.attributeError "public_information") :=
  run_experiment_always_attribute_error cfgPlain [[("agent_id", .pint 1)]] 5 rfl

/-- C5: initializing the agent for a role id outside the configured
`agent_roles` raises `ValueError` and binds no agent; for a configured role
id it succeeds and binds an agent-role instance carrying exactly that role
id. -/
theorem initialize_agent_role_set (roles : List AgentRoleConfig)
    (manager : Manager) (role_id : Int) :
    ((∀ r ∈ roles, r.role_id ≠ role_id) →
      initializeAgent roles manager role_id =
        .error (.valueError "Invalid role for agent initialization." none)) ∧
    ((∃ r ∈ roles, r.role_id = role_id) →
      ∃ m, initializeAgent roles manager role_id = .ok m ∧
        ∃ a, m.agent_role = some a ∧ a.role = role_id) := by
  constructor
  · intro hnone
    have hfind : roles.find? (fun r => r.role_id == role_id) = none := by
      apply List.find?_eq_none.mpr
      intro r hr
      simp [hnone r hr]
    simp [initializeAgent, hfind]
  · rintro ⟨r, hr, heq⟩
    have hsome : (roles.find? (fun r => r.role_id == role_id)).isSome := by
      rw [List.find?_isSome]
      exact ⟨r, hr, by simp [heq]⟩
    obtain ⟨r0, hr0⟩ := Option.isSome_iff_exists.mp hsome
    have hp := List.find?_some hr0
    refine ⟨{ manager with agent_role := some r0.create_agent_role }, ?_,
            r0.create_agent_role, rfl, ?_⟩
    · simp [initializeAgent, hr0]
    · simpa [AgentRoleConfig.create_agent_role] using hp

/-- Witness for C5: with roles 1, 2, 3 configured, role 99 is a fatal
`ValueError` and role 2 binds the role-2 agent. -/
theorem initialize_agent_role_set_witness :
    initializeAgent demoRoles demoManager 99 =
      .error (.valueError "Invalid role for agent initialization." none) ∧
    ∃ m, initializeAgent demoRoles demoManager 2 = .ok m ∧
      ∃ a, m.agent_role = some a ∧ a.role = 2 :=
  ⟨(initialize_agent_role_set demoRoles demoManager 99).1 (by decide),
   (initialize_agent_role_set demoRoles demoManager 2).2
     ⟨{ role_id := 2, name := "Developer" }, by simp [demoRoles], rfl⟩⟩

/-- C7: on an assign-name event, the IBEX-TUDelft manager sends exactly one
readiness acknowledgement, whose payload is exactly
`{"gameId": game_id, "type": "player-is-ready", "agentId": agent_id}` with
the agent id taken from the auth kwargs and no other keys. -/
theorem name_assignment_ready_message (game_id : Int) (auth_kwargs : PyDict)
    (manager : Manager) (message : Message) (aid : Int)
    (hid : lookupVal auth_kwargs "agent_id" = some (.pint aid)) :
    (handleNameAssignment game_id auth_kwargs manager message).sent =
      manager.sent ++
        [[("gameId", .pint game_id), ("type", .pstr "player-is-ready"),
          ("agentId", .pint aid)]] := by
  simp [handleNameAssignment, Manager.send_message, hid]

/-- Witness for C7: auth kwargs with agent id 7 and game 42 produce the
single readiness payload. -/
theorem name_assignment_ready_message_witness :
    (handleNameAssignment 42 demoAuthKwargs demoManager demoAssignName).sent =
      demoManager.sent ++
        [[("gameId", .pint 42), ("type", .pstr "player-is-ready"),
          ("agentId", .pint 7)]] :=
  name_assignment_ready_message 42 demoAuthKwargs demoManager demoAssignName 7 rfl

/-- C8 counterexample: when the inner processing of an `add-order` event
raises `ValueError("boom")`, the market handler re-raises
`ValueError("Error processing market event: boom")` — the wrapped message
does not contain the failing event type `add-order`. -/
theorem market_event_error_counterexample :
    handleMarketEventImpl failingProcessEvent "add-order" [] =
      .error (.valueError "Error processing market event: boom"
        (some (.valueError "boom" none))) ∧
    strContains "Error processing market event: boom" "add-order" = false :=
  ⟨rfl, rfl⟩

/-- C8 (amended): whenever the inner processing raises, the market handler
re-raises a `ValueError` whose message is
`"Error processing market event: "` followed by the underlying error's
message, with the underlying error attached as the cause — it never
silently drops the error; the message names the handler's event category
but not the specific event type. -/
theorem market_event_error_wrapped {α : Type}
    (process_event : String → PyDict → Except PyError α)
    (event_type : String) (data : PyDict) (e : PyError)
    (herr : process_event event_type data = .error e) :
    handleMarketEventImpl process_event event_type data =
      .error (.valueError ("Error processing market event: " ++ e.pyStr) (some e)) := by
  simp [handleMarketEventImpl, herr]

/-- Witness for C8 (amended): the failing `update-order` call is wrapped
with its cause preserved. -/
theorem market_event_error_wrapped_witness :
    handleMarketEventImpl failingProcessEvent "update-order" [] =
      .error (.valueError ("Error processing market event: " ++
        (PyError.valueError "boom" none).pyStr) (some (.valueError "boom" none))) :=
  market_event_error_wrapped failingProcessEvent "update-order" []
    (.valueError "boom" none) rfl

/-- C9: with a positive maximum game duration whose deadline elapses while
agents still run, the runner forcibly stops every still-running manager and
logs the timeout; with a zero or negative maximum duration there is no
timeout supervision at all — no forced stop and no timeout log, however
long the agents run. -/
theorem runner_timeout_supervision (max_game_duration : Int)
    (agentDurations : List Nat) :
    (0 < max_game_duration →
      stillRunningAt agentDurations max_game_duration.toNat ≠ [] →
      (runGameSim max_game_duration agentDurations).forcedStops =
        stillRunningAt agentDurations max_game_duration.toNat ∧
      (runGameSim max_game_duration agentDurations).timeoutLogged = true) ∧
    (max_game_duration ≤ 0 →
      runGameSim max_game_duration agentDurations =
        { forcedStops := [], timeoutLogged := false }) := by
  constructor
  · intro hpos hne
    have h1 : ¬ max_game_duration ≤ 0 := by omega
    have h2 : (stillRunningAt agentDurations max_game_duration.toNat).isEmpty = false := by
      rcases hcase : stillRunningAt agentDurations max_game_duration.toNat with _ | ⟨a, as⟩
      · exact absurd hcase hne
      · rfl
    simp [runGameSim, h1, h2]
  · intro hle
    simp [runGameSim, hle]

/-- Witness for C9: deadline 1 with an agent that would run for 5 forces a
stop of that agent and logs the timeout; duration 0 disables supervision. -/
theorem runner_timeout_supervision_witness :
    (runGameSim 1 [5]).forcedStops = stillRunningAt [5] (1 : Int).toNat ∧
    (runGameSim 1 [5]).timeoutLogged = true ∧
    runGameSim 0 [5] = { forcedStops := [], timeoutLogged := false } :=
  have h := (runner_timeout_supervision 1 [5]).1 (by decide) (by decide)
  ⟨h.1, h.2, (runner_timeout_supervision 0 [5]).2 (by decide)⟩

/-- C10 counterexample: a field configuration carrying
`events: ["round-started"]` under the documented key still yields a mapping
with both filters absent — the generated mapping fires on arbitrary event
types (here `price-update`) instead of being restricted to the list. -/
theorem field_event_filter_counterexample :
    mappingOfRawField "public" c10RawField = some c10Mapping ∧
    c10Mapping.should_apply_in_event "price-update" = true :=
  ⟨rfl, rfl⟩

/-- C10 (amended): the per-field configuration schema carries no event
allow/deny list (`events`/`exclude_events` keys are ignored), and every
property mapping auto-generated from a config-built state class has
`events = None` and `exclude_events = None`, applying to all event types;
event filters exist only on hand-written `EventField` declarations. -/
theorem config_generated_mapping_no_filters :
    ∀ (f : StateFieldConfig) (st : String) (meta : EventFieldMeta)
      (m : PropertyMapping),
      fieldToEventField f = .ok meta →
      mappingFromEventField st f.name meta = some m →
      m.events = none ∧ m.exclude_events = none := by
  intro f st meta m hf hm
  have hmeta : meta.events = none ∧ meta.exclude_events = none := by
    unfold fieldToEventField at hf
    split at hf
    · injection hf with h
      rw [← h]
      exact ⟨rfl, rfl⟩
    · split at hf
      · cases hf
      · injection hf with h
        rw [← h]
        exact ⟨rfl, rfl⟩
  unfold mappingFromEventField at hm
  split at hm
  · cases hm
  · injection hm with h
    rw [← h]
    exact hmeta

/-- Witness for C10 (amended): the mapping generated for the
`round_limit` field has both filters absent. -/
theorem config_generated_mapping_no_filters_witness :
    c10Mapping.events = none ∧ c10Mapping.exclude_events = none :=
  config_generated_mapping_no_filters
    { name := "round_limit", type := "int", default := .pint 10 } "public"
    { default := .pint 10 } c10Mapping rfl rfl
